import Mathlib

/-!
Verification of the gemini-cli embedding codec and the `embed db` / `prompt`
command pipelines, shallowly embedded from the Go sources.

A Go `float32` is modelled by its IEEE-754 bit pattern: a natural number
below 2^32.  `binary.Write(buf, binary.LittleEndian, f)` serializes exactly
these 32 bits in little-endian byte order, and `binary.Read` reconstructs the
same bit pattern, so the codec is bit-exact and the model is faithful.
Bytes are natural numbers below 256 (every byte produced by the encoder is
taken modulo 256 by construction).
-/

namespace GeminiCli

/-- Little-endian serialization of one 32-bit word, as performed for each
`float32` by `binary.Write(buf, binary.LittleEndian, f)` in
`encodeEmbedding` (part_000 lines 201-210). -/
def toLEBytes (w : Nat) : List Nat :=
  [w % 256, w / 256 % 256, w / 65536 % 256, w / 16777216 % 256]

/-- Model of `encodeEmbedding` (part_000 lines 201-210): writes each `float32` of the
embedding in little-endian order into a growing byte buffer and returns the
bytes of the buffer; no header, length prefix, or checksum is added. -/
def encodeEmbedding (emb : List Nat) : List Nat :=
  (emb.map toLEBytes).flatten

/-- Little-endian deserialization of one 32-bit word from four bytes, as
performed for each `float32` by `binary.Read(buf, binary.LittleEndian, &num)`
in `decodeEmbedding` (part_000 lines 213-229). -/
def fromLEBytes (b0 b1 b2 b3 : Nat) : Nat :=
  b0 + b1 * 256 + b2 * 65536 + b3 * 16777216

/-- The read loop of `decodeEmbedding` (part_000 lines 220-227): reads `n`
little-endian 32-bit words from the byte stream.  `binary.Read` hitting the
end of the stream makes the Go code panic; that branch is modelled by
`none`. -/
def readFloats : Nat → List Nat → Option (List Nat)
  | 0, _ => some []
  | n + 1, b0 :: b1 :: b2 :: b3 :: rest =>
      (readFloats n rest).map (fun l => fromLEBytes b0 b1 b2 b3 :: l)
  | _ + 1, _ => none

/-- Model of `decodeEmbedding` (part_000 lines 213-229): computes
`count := buf.Len() / 4` and reads `count` little-endian `float32` values
from the byte buffer. -/
def decodeEmbedding (b : List Nat) : Option (List Nat) :=
  readFloats (b.length / 4) b

/-! ### Codec lemmas -/

lemma toLEBytes_length (w : Nat) : (toLEBytes w).length = 4 := rfl

lemma encodeEmbedding_nil : encodeEmbedding [] = [] := rfl

lemma encodeEmbedding_cons (x : Nat) (xs : List Nat) :
    encodeEmbedding (x :: xs) = toLEBytes x ++ encodeEmbedding xs := by
  simp [encodeEmbedding]

lemma encodeEmbedding_length (v : List Nat) :
    (encodeEmbedding v).length = 4 * v.length := by
  induction v with
  | nil => rfl
  | cons x xs ih =>
      rw [encodeEmbedding_cons]
      simp [toLEBytes, ih]
      omega

lemma fromLEBytes_toLEBytes (w : Nat) (hw : w < 4294967296) :
    fromLEBytes (w % 256) (w / 256 % 256) (w / 65536 % 256) (w / 16777216 % 256) = w := by
  unfold fromLEBytes
  omega

lemma readFloats_cons4 (n b0 b1 b2 b3 : Nat) (rest : List Nat) :
    readFloats (n + 1) (b0 :: b1 :: b2 :: b3 :: rest)
      = (readFloats n rest).map (fun l => fromLEBytes b0 b1 b2 b3 :: l) := rfl

lemma readFloats_encode (v : List Nat) (h : ∀ x ∈ v, x < 4294967296) :
    readFloats v.length (encodeEmbedding v) = some v := by
  induction v with
  | nil => rfl
  | cons x xs ih =>
      have hx : x < 4294967296 := h x (List.mem_cons_self x xs)
      have hxs : ∀ y ∈ xs, y < 4294967296 := fun y hy => h y (List.mem_cons_of_mem x hy)
      rw [encodeEmbedding_cons]
      have hcons : toLEBytes x ++ encodeEmbedding xs
          = x % 256 :: x / 256 % 256 :: x / 65536 % 256 :: x / 16777216 % 256
            :: encodeEmbedding xs := rfl
      rw [List.length_cons, hcons, readFloats_cons4, ih hxs]
      simp [fromLEBytes_toLEBytes x hx]

lemma drop_four_cons (n a b c d : Nat) (l : List Nat) :
    List.drop (n + 4) (a :: b :: c :: d :: l) = List.drop n l := rfl

lemma take_four_cons (n a b c d : Nat) (l : List Nat) :
    List.take (n + 4) (a :: b :: c :: d :: l) = a :: b :: c :: d :: List.take n l := rfl

lemma encodeEmbedding_drop (v : List Nat) :
    ∀ i, i < v.length →
      (encodeEmbedding v).drop (4 * i)
        = toLEBytes (v.getD i 0) ++ encodeEmbedding (v.drop (i + 1)) := by
  induction v with
  | nil => intro i hi; simp at hi
  | cons x xs ih =>
      intro i hi
      match i with
      | 0 => simpa using encodeEmbedding_cons x xs
      | j + 1 =>
          have hj : j < xs.length := by simp at hi; omega
          rw [encodeEmbedding_cons,
              show toLEBytes x ++ encodeEmbedding xs
                = x % 256 :: x / 256 % 256 :: x / 65536 % 256 :: x / 16777216 % 256
                  :: encodeEmbedding xs from rfl,
              Nat.mul_succ, drop_four_cons]
          simpa using ih j hj

lemma readFloats_total (n : Nat) (b : List Nat) (h : 4 * n ≤ b.length) :
    ∃ l, readFloats n b = some l ∧ l.length = n := by
  induction n generalizing b with
  | zero => exact ⟨[], rfl, rfl⟩
  | succ m ih =>
      match b with
      | [] => simp at h
      | [b0] => simp at h; omega
      | [b0, b1] => simp at h; omega
      | [b0, b1, b2] => simp at h; omega
      | b0 :: b1 :: b2 :: b3 :: rest =>
          have h4 : 4 * m ≤ rest.length := by
            simp only [List.length_cons] at h; omega
          obtain ⟨l, hl, hlen⟩ := ih rest h4
          exact ⟨fromLEBytes b0 b1 b2 b3 :: l,
            by rw [readFloats_cons4, hl]; rfl, by simp [hlen]⟩

lemma readFloats_take (n : Nat) (b : List Nat) :
    readFloats n b = readFloats n (b.take (4 * n)) := by
  induction n generalizing b with
  | zero => rfl
  | succ m ih =>
      match b with
      | [] => rfl
      | [b0] => rfl
      | [b0, b1] => rfl
      | [b0, b1, b2] => rfl
      | b0 :: b1 :: b2 :: b3 :: rest =>
          have ht : (b0 :: b1 :: b2 :: b3 :: rest).take (4 * (m + 1))
              = b0 :: b1 :: b2 :: b3 :: rest.take (4 * m) := rfl
          rw [ht, readFloats_cons4, readFloats_cons4, ih rest]

/-! ### Claims about the codec -/

/-- C1: for every vector of 32-bit floats (represented by their bit
patterns), `decodeEmbedding (encodeEmbedding v) = v`: decoding reverses the
encoding, recovering the element count as byte length divided by four. -/
theorem decode_encode_roundtrip_c1 (v : List Nat) (h : ∀ x ∈ v, x < 4294967296) :
    decodeEmbedding (encodeEmbedding v) = some v := by
  rw [decodeEmbedding, encodeEmbedding_length,
      Nat.mul_div_cancel_left _ (by norm_num : (0:Nat) < 4)]
  exact readFloats_encode v h

theorem decode_encode_roundtrip_c1_witness :
    decodeEmbedding (encodeEmbedding [1065353216, 0, 3212836864])
      = some [1065353216, 0, 3212836864] :=
  decode_encode_roundtrip_c1 [1065353216, 0, 3212836864] (by decide)

/-- C2: `encodeEmbedding v` has length exactly `4 * v.length` (no header,
length prefix, or checksum), and for every `i < v.length` the bytes at
positions `4*i .. 4*i+3` are the little-endian serialization of `v[i]`. -/
theorem encodeEmbedding_layout_c2 (v : List Nat) :
    (encodeEmbedding v).length = 4 * v.length ∧
    ∀ i, i < v.length →
      ((encodeEmbedding v).drop (4 * i)).take 4 = toLEBytes (v.getD i 0) := by
  refine ⟨encodeEmbedding_length v, fun i hi => ?_⟩
  rw [encodeEmbedding_drop v i hi]
  rfl

theorem encodeEmbedding_layout_c2_witness :
    (1 : Nat) < ([258, 4278190080] : List Nat).length ∧
    ((encodeEmbedding [258, 4278190080]).drop (4 * 1)).take 4
      = toLEBytes (([258, 4278190080] : List Nat).getD 1 0) :=
  ⟨by decide, (encodeEmbedding_layout_c2 [258, 4278190080]).2 1 (by decide)⟩

/-- C8: `decodeEmbedding` is total: for every byte slice `b`, including
slices whose length is not a multiple of four and the empty slice, it
returns (no panic) exactly `b.length / 4` floats decoded from the first
`4 * (b.length / 4)` bytes, silently ignoring the trailing bytes. -/
theorem decodeEmbedding_total_c8 (b : List Nat) :
    (decodeEmbedding b).isSome = true ∧
    ((decodeEmbedding b).getD []).length = b.length / 4 ∧
    decodeEmbedding b = decodeEmbedding (b.take (4 * (b.length / 4))) := by
  have hle : 4 * (b.length / 4) ≤ b.length := by omega
  obtain ⟨l, hl, hlen⟩ := readFloats_total (b.length / 4) b hle
  refine ⟨?_, ?_, ?_⟩
  · rw [decodeEmbedding, hl]; rfl
  · rw [decodeEmbedding, hl]; simpa using hlen
  · have htl : (b.take (4 * (b.length / 4))).length = 4 * (b.length / 4) := by
      rw [List.length_take]
      exact Nat.min_eq_left hle
    rw [decodeEmbedding, decodeEmbedding, htl,
        Nat.mul_div_cancel_left _ (by norm_num : (0:Nat) < 4)]
    exact readFloats_take (b.length / 4) b

/-!
### The `embed db` pipeline (`embedModeDB`, part_000 lines 86-175)

`embedModeDB` is an extract loop over a SQLite database.  The external
database is modelled by an environment of oracle results for each database
call the function performs; column values (Go `any`) are an arbitrary type
`α` together with the `fmt.Sprintf` percent-v formatter `fmtv`.  Every
`log.Fatal`/`panic` in the Go code terminates the process; these are the
constructors of `Abort`, and the function returns `Except Abort _`.
-/

/-- The ways `embedModeDB` (and its helper `scanRowIntoSlice`) aborts the
process: one constructor per `log.Fatal` / `panic` site. -/
inductive Abort where
  /-- part_000 line 94: `unable to open DB at <dbPath>`. -/
  | openDB (dbPath : String)
  /-- part_000 line 105: `unable to create table in DB: <tableName>`. -/
  | createTable (tableName : String)
  /-- part_000 line 119: `expect <alias>,<db path> pair for --attach`. -/
  | badAttachPair (n : Nat)
  /-- part_000 line 128: `unable to attach <path>: <err>`. -/
  | attachFailed (path : String) (msg : String)
  /-- part_000 line 134: `error running SQL query: <err>`. -/
  | queryFailed (msg : String)
  /-- part_000 lines 235/246 (`scanRowIntoSlice`): column-name or scan
  error on one row. -/
  | scanFailed (msg : String)
  /-- part_000 line 142: `expect at least 2 columns from query; got <n>`. -/
  | fewColumns (n : Nat)
  /-- part_000 line 155: `error scanning DB: <err>` from `rows.Err()`. -/
  | rowsIterFailed (msg : String)
  /-- part_000 line 159: `panic("only sql for now")` when no SQL query was
  supplied. -/
  | onlySQLPanic
  deriving Repr, DecidableEq

/-- Oracle results for the database calls made by `embedModeDB`.  A scanned
row (`scanRowIntoSlice`) is `Except.ok` with the column values, or
`Except.error` when `row.Columns`/`row.Scan` fails. -/
structure EmbedDBEnv (α : Type) where
  /-- Result of `fmt.Sprintf` with percent-v on a column value. -/
  fmtv : α → String
  /-- result of `sql.Open("sqlite3", dbPath)` (line 92). -/
  openDB : Except String Unit
  /-- result of `db.Exec(CREATE TABLE IF NOT EXISTS ...)` (lines 98-103). -/
  execCreateTable : Except String Unit
  /-- result of `db.Exec(ATTACH DATABASE <path> as <alias>)` (lines 126-127),
  given the path and the alias. -/
  execAttach : String → String → Except String Unit
  /-- result of `db.Query(sqlMode)` (line 132): the scanned rows in
  iteration order. -/
  queryRows : Except String (List (Except String (List α)))
  /-- result of `rows.Err()` after the loop (line 154). -/
  rowsErr : Except String Unit

/-- Observable outcome of a successful `embedModeDB` run. -/
structure EmbedDBOutput where
  /-- the ids printed by `fmt.Println(ids)` (line 162). -/
  printedIds : List String
  /-- the texts printed by `fmt.Println(texts)` (line 163). -/
  printedTexts : List String
  /-- rows inserted into the embeddings output table.  The Go code never
  executes an INSERT: after printing, the embedding step is a TODO
  (line 164 `// TODO: now actually embed them`) and the client code that
  would do it is commented out (lines 166-174). -/
  insertedRows : List (String × List Nat)
  deriving Repr, DecidableEq

/-- Loop body of the row loop (part_000 lines 138-151): abort when the row
has fewer than 2 columns, else format column 0 as the id and join the
formatted remaining columns with a single space as the text. -/
def processRow {α : Type} (fmtv : α → String) (values : List α) :
    Except Abort (String × String) :=
  if values.length < 2 then
    Except.error (Abort.fewColumns values.length)
  else
    Except.ok ((values.map fmtv).headD "",
      String.intercalate " " ((values.map fmtv).drop 1))

/-- The row loop (part_000 lines 138-151): processes the scanned rows in
order, accumulating the id and text lists; a scan failure
(`scanRowIntoSlice`, lines 232-249) or a too-short row aborts, dropping all
remaining rows. -/
def processRows {α : Type} (fmtv : α → String) :
    List (Except String (List α)) → Except Abort (List String × List String)
  | [] => Except.ok ([], [])
  | row :: rest =>
      match row with
      | Except.error msg => Except.error (Abort.scanFailed msg)
      | Except.ok values =>
          match processRow fmtv values with
          | Except.error e => Except.error e
          | Except.ok (id, text) =>
              match processRows fmtv rest with
              | Except.error e => Except.error e
              | Except.ok (ids, texts) => Except.ok (id :: ids, text :: texts)

/-- The query phase of the SQL branch (part_000 lines 132-163): run the SQL
query, loop over the rows, check `rows.Err()`, then print the ids and the
texts.  Nothing is inserted into the output table (the embedding step is a
TODO in the source). -/
def runQuery {α : Type} (env : EmbedDBEnv α) : Except Abort EmbedDBOutput :=
  match env.queryRows with
  | Except.error msg => Except.error (Abort.queryFailed msg)
  | Except.ok rows =>
      match processRows env.fmtv rows with
      | Except.error e => Except.error e
      | Except.ok (ids, texts) =>
          match env.rowsErr with
          | Except.error msg => Except.error (Abort.rowsIterFailed msg)
          | Except.ok _ =>
              Except.ok { printedIds := ids, printedTexts := texts, insertedRows := [] }

/-- Model of `embedModeDB` (part_000 lines 86-175): open the database, create the
output table, and in SQL mode optionally attach a secondary database
(aborting unless `--attach` has exactly two elements) before running the
query; with no SQL query the function panics (`only sql for now`). -/
def embedModeDB {α : Type} (env : EmbedDBEnv α) (dbPath tableName sqlMode : String)
    (attachPair : List String) : Except Abort EmbedDBOutput :=
  match env.openDB with
  | Except.error _ => Except.error (Abort.openDB dbPath)
  | Except.ok _ =>
      match env.execCreateTable with
      | Except.error _ => Except.error (Abort.createTable tableName)
      | Except.ok _ =>
          if sqlMode ≠ "" then
            if attachPair.length > 0 then
              if attachPair.length ≠ 2 then
                Except.error (Abort.badAttachPair attachPair.length)
              else
                match env.execAttach (attachPair.getD 1 "") (attachPair.getD 0 "") with
                | Except.error msg =>
                    Except.error (Abort.attachFailed (attachPair.getD 1 "") msg)
                | Except.ok _ => runQuery env
            else runQuery env
          else
            Except.error Abort.onlySQLPanic

/-! ### Pipeline lemmas -/

lemma processRow_short {α : Type} (fmtv : α → String) (values : List α)
    (h : values.length < 2) :
    processRow fmtv values = Except.error (Abort.fewColumns values.length) := by
  unfold processRow
  rw [if_pos h]

lemma processRow_long {α : Type} (fmtv : α → String) (v0 v1 : α) (rest : List α) :
    processRow fmtv (v0 :: v1 :: rest)
      = Except.ok (fmtv v0, String.intercalate " " ((v1 :: rest).map fmtv)) := by
  unfold processRow
  rw [if_neg (by simp only [List.length_cons]; omega)]
  simp

lemma processRows_short {α : Type} (fmtv : α → String) (values : List α)
    (rest : List (Except String (List α))) (h : values.length < 2) :
    processRows fmtv (Except.ok values :: rest)
      = Except.error (Abort.fewColumns values.length) := by
  simp [processRows, processRow_short fmtv values h]

lemma runQuery_inserts_nothing {α : Type} (env : EmbedDBEnv α) (out : EmbedDBOutput)
    (h : runQuery env = Except.ok out) : out.insertedRows = [] := by
  unfold runQuery at h
  split at h
  · simp at h
  · split at h
    · simp at h
    · split at h
      · simp at h
      · simp only [Except.ok.injEq] at h
        rw [← h]

/-- Sample environment: every database call succeeds and the query yields
one well-formed row `(a, hello)`. -/
def envOk : EmbedDBEnv String where
  fmtv := fun s => s
  openDB := Except.ok ()
  execCreateTable := Except.ok ()
  execAttach := fun _ _ => Except.ok ()
  queryRows := Except.ok [Except.ok ["a", "hello"]]
  rowsErr := Except.ok ()

/-- Sample environment: scanning the first row fails with `boom` while a
further well-formed row is still pending. -/
def envScanFail : EmbedDBEnv String where
  fmtv := fun s => s
  openDB := Except.ok ()
  execCreateTable := Except.ok ()
  execAttach := fun _ _ => Except.ok ()
  queryRows := Except.ok [Except.error "boom", Except.ok ["a", "b"]]
  rowsErr := Except.ok ()

/-! ### Claims about the `embed db` pipeline -/

/-- C3 (refuted; code_bug): the claim says every extracted `(id, text)` pair
is embedded and persisted into the output table keyed by id, but every
successful `embedModeDB` run inserts no row at all: the code prints the
extracted ids and texts and leaves the embedding and the insertion as a TODO
(part_000 lines 162-174). -/
theorem embedModeDB_inserts_nothing_c3 {α : Type} (env : EmbedDBEnv α)
    (dbPath tableName sqlMode : String) (attachPair : List String)
    (out : EmbedDBOutput)
    (h : embedModeDB env dbPath tableName sqlMode attachPair = Except.ok out) :
    out.insertedRows = [] := by
  unfold embedModeDB at h
  split at h
  · simp at h
  · split at h
    · simp at h
    · split at h
      · split at h
        · split at h
          · simp at h
          · split at h
            · simp at h
            · exact runQuery_inserts_nothing env out h
        · exact runQuery_inserts_nothing env out h
      · simp at h

theorem embedModeDB_inserts_nothing_c3_witness :
    embedModeDB envOk "out.db" "embeddings" "select id, txt from docs" []
      = Except.ok { printedIds := ["a"], printedTexts := ["hello"], insertedRows := [] } ∧
    EmbedDBOutput.insertedRows
      { printedIds := ["a"], printedTexts := ["hello"], insertedRows := [] } = [] :=
  ⟨rfl, embedModeDB_inserts_nothing_c3 envOk "out.db" "embeddings"
    "select id, txt from docs" [] _ rfl⟩

/-- C4 (refuted; code_bug): the claim says that with a database path and no
SQL query the `(id, text)` inputs come from a filesystem walk; instead, once
the database is opened and the table created, the code panics with
`only sql for now` (part_000 line 159). -/
theorem embedModeDB_no_sql_panics_c4 {α : Type} (env : EmbedDBEnv α)
    (dbPath tableName : String) (attachPair : List String)
    (h1 : env.openDB = Except.ok ()) (h2 : env.execCreateTable = Except.ok ()) :
    embedModeDB env dbPath tableName "" attachPair
      = Except.error Abort.onlySQLPanic := by
  unfold embedModeDB
  rw [h1, h2]
  simp

theorem embedModeDB_no_sql_panics_c4_witness :
    embedModeDB envOk "out.db" "embeddings" "" []
      = Except.error Abort.onlySQLPanic :=
  embedModeDB_no_sql_panics_c4 envOk "out.db" "embeddings" [] rfl rfl

/-- C5: in SQL mode, an `--attach` value that is not an alias, path pair of
exactly two elements aborts the run; with exactly two elements the named
database file is attached under the given alias, an attach failure aborts,
and on success the run proceeds to the SQL query. -/
theorem embedModeDB_attach_c5 {α : Type} (env : EmbedDBEnv α)
    (dbPath tableName sqlMode : String) (hsql : sqlMode ≠ "")
    (h1 : env.openDB = Except.ok ()) (h2 : env.execCreateTable = Except.ok ()) :
    (∀ attachPair : List String, 0 < attachPair.length → attachPair.length ≠ 2 →
        embedModeDB env dbPath tableName sqlMode attachPair
          = Except.error (Abort.badAttachPair attachPair.length)) ∧
    (∀ aliasName path msg, env.execAttach path aliasName = Except.error msg →
        embedModeDB env dbPath tableName sqlMode [aliasName, path]
          = Except.error (Abort.attachFailed path msg)) ∧
    (∀ aliasName path, env.execAttach path aliasName = Except.ok () →
        embedModeDB env dbPath tableName sqlMode [aliasName, path] = runQuery env) := by
  refine ⟨fun ap hpos hne => ?_, fun aliasName path msg hatt => ?_,
    fun aliasName path hatt => ?_⟩
  · unfold embedModeDB
    rw [h1, h2, if_pos hsql, if_pos hpos, if_pos hne]
  · unfold embedModeDB
    rw [h1, h2, if_pos hsql]
    norm_num
    rw [hatt]
  · unfold embedModeDB
    rw [h1, h2, if_pos hsql]
    norm_num
    rw [hatt]

theorem embedModeDB_attach_c5_witness :
    embedModeDB envOk "out.db" "embeddings" "select a, b from other.t"
      ["other", "other.db"] = runQuery envOk :=
  (embedModeDB_attach_c5 envOk "out.db" "embeddings" "select a, b from other.t"
    (by decide) rfl rfl).2.2 "other" "other.db" rfl

/-- C6: there is no failure recovery: an error at any step -- opening the
database, creating the table, attaching a database, running the SQL query,
scanning a row, iterating rows -- aborts the run immediately at that step,
with no retry, fallback, or continuation with the remaining rows. -/
theorem embedModeDB_abort_on_error_c6 {α : Type} (env : EmbedDBEnv α)
    (dbPath tableName sqlMode : String) (hsql : sqlMode ≠ "") :
    (∀ e attachPair, env.openDB = Except.error e →
        embedModeDB env dbPath tableName sqlMode attachPair
          = Except.error (Abort.openDB dbPath)) ∧
    (∀ e attachPair, env.openDB = Except.ok () →
        env.execCreateTable = Except.error e →
        embedModeDB env dbPath tableName sqlMode attachPair
          = Except.error (Abort.createTable tableName)) ∧
    (∀ aliasName path msg, env.openDB = Except.ok () →
        env.execCreateTable = Except.ok () →
        env.execAttach path aliasName = Except.error msg →
        embedModeDB env dbPath tableName sqlMode [aliasName, path]
          = Except.error (Abort.attachFailed path msg)) ∧
    (∀ msg, env.openDB = Except.ok () → env.execCreateTable = Except.ok () →
        env.queryRows = Except.error msg →
        embedModeDB env dbPath tableName sqlMode []
          = Except.error (Abort.queryFailed msg)) ∧
    (∀ msg rest, env.openDB = Except.ok () → env.execCreateTable = Except.ok () →
        env.queryRows = Except.ok (Except.error msg :: rest) →
        embedModeDB env dbPath tableName sqlMode []
          = Except.error (Abort.scanFailed msg)) ∧
    (∀ msg, env.openDB = Except.ok () → env.execCreateTable = Except.ok () →
        env.queryRows = Except.ok [] → env.rowsErr = Except.error msg →
        embedModeDB env dbPath tableName sqlMode []
          = Except.error (Abort.rowsIterFailed msg)) := by
  refine ⟨fun e ap h1 => ?_, fun e ap h1 h2 => ?_, fun aliasName path msg h1 h2 hatt => ?_,
    fun msg h1 h2 hq => ?_, fun msg rest h1 h2 hq => ?_, fun msg h1 h2 hq hr => ?_⟩
  · unfold embedModeDB
    rw [h1]
  · unfold embedModeDB
    rw [h1, h2]
  · unfold embedModeDB
    rw [h1, h2, if_pos hsql]
    norm_num
    rw [hatt]
  · unfold embedModeDB
    rw [h1, h2, if_pos hsql]
    norm_num
    unfold runQuery
    rw [hq]
  · unfold embedModeDB
    rw [h1, h2, if_pos hsql]
    norm_num
    unfold runQuery
    rw [hq]
    have hpr : processRows env.fmtv (Except.error msg :: rest)
        = Except.error (Abort.scanFailed msg) := by
      simp [processRows]
    simp [hpr]
  · unfold embedModeDB
    rw [h1, h2, if_pos hsql]
    norm_num
    unfold runQuery
    rw [hq]
    have hpr : processRows env.fmtv ([] : List (Except String (List α)))
        = Except.ok ([], []) := rfl
    simp [hpr, hr]

theorem embedModeDB_abort_on_error_c6_witness :
    embedModeDB envScanFail "out.db" "embeddings" "select id, txt from docs" []
      = Except.error (Abort.scanFailed "boom") :=
  (embedModeDB_abort_on_error_c6 envScanFail "out.db" "embeddings"
    "select id, txt from docs" (by decide)).2.2.2.2.1
    "boom" [Except.ok ["a", "b"]] rfl rfl rfl

/-- C9: for every result row: the run aborts when the row has fewer than 2
columns; otherwise the id is the string formatting of column 0 and the text
is the string formattings of columns 1..n joined by single spaces in column
order; the abort propagates through the row loop. -/
theorem processRow_c9 {α : Type} (fmtv : α → String) :
    (∀ values : List α, values.length < 2 →
        processRow fmtv values = Except.error (Abort.fewColumns values.length)) ∧
    (∀ (v0 v1 : α) (rest : List α),
        processRow fmtv (v0 :: v1 :: rest)
          = Except.ok (fmtv v0, String.intercalate " " ((v1 :: rest).map fmtv))) ∧
    (∀ (values : List α) (rest : List (Except String (List α))),
        values.length < 2 →
        processRows fmtv (Except.ok values :: rest)
          = Except.error (Abort.fewColumns values.length)) :=
  ⟨processRow_short fmtv, processRow_long fmtv, processRows_short fmtv⟩

theorem processRow_c9_witness :
    processRow (fun s => s) ["a"] = Except.error (Abort.fewColumns 1) ∧
    processRow (fun s => s) ["a", "b", "c"] = Except.ok ("a", "b c") :=
  ⟨(processRow_c9 (fun s => s)).1 ["a"] (by decide),
   by simpa using (processRow_c9 (fun s => s)).2.1 "a" "b" ["c"]⟩

/-!
### The `prompt` command (src/internal/commands/prompt.go)

`runPromptCmd` assembles the prompt parts.  A `genai.Part` is text or
image bytes; stdin is `some contents` when standard input is not a
terminal and `none` when it is.
-/

/-- Model of `genai.Part`: one unit of input to a generative model — text, or image
data (`genai.Blob` with a MIME type). -/
inductive GenaiPart where
  | text (s : String)
  | imageData (mimeType : String) (bytes : List Nat)
  deriving Repr, DecidableEq

/-- Model of `runPromptCmd` (prompt.go lines 38-62), part-assembly phase: append the
`--system` flag value when non-empty, then the full stdin contents when
stdin is not a terminal, then `args[0]` when at least one positional
argument is present; abort when no part was collected.  Every part is built
with `genai.Text` — arguments are never turned into image parts. -/
def runPromptCmd (sysPrompt : String) (stdinContent : Option String)
    (args : List String) : Except String (List GenaiPart) :=
  let promptParts : List GenaiPart := []
  let promptParts := if sysPrompt ≠ "" then promptParts ++ [GenaiPart.text sysPrompt]
    else promptParts
  let promptParts := match stdinContent with
    | some b => promptParts ++ [GenaiPart.text b]
    | none => promptParts
  let promptParts := if args.length ≥ 1 then promptParts ++ [GenaiPart.text (args.headD "")]
    else promptParts
  if promptParts.length = 0 then
    Except.error "expect a prompt from stdin and/or command-line argument"
  else
    Except.ok promptParts

/-! ### Claims about the `prompt` command -/

/-- C7 (refuted; code_bug): the claim says an argument naming an image file
or an image URL is sent as an image part; `runPromptCmd` sends every used
argument as a text part, image file name or not (image support is a TODO in
prompt.go). -/
theorem promptCmd_image_args_are_text_c7 :
    runPromptCmd "" none ["puppies.png"]
      = Except.ok [GenaiPart.text "puppies.png"] ∧
    runPromptCmd "" none ["https://example.com/cat.png"]
      = Except.ok [GenaiPart.text "https://example.com/cat.png"] :=
  ⟨rfl, rfl⟩

/-- C10: the prompt command assembles parts in the fixed order system flag
(if non-empty), stdin contents (if not a terminal), first positional
argument (if any); zero collected parts abort with an error, and positional
arguments after the first are ignored. -/
theorem promptCmd_part_order_c10 :
    (∀ (sysPrompt : String) (stdinContent : Option String) (args : List String),
      runPromptCmd sysPrompt stdinContent args =
        (let parts :=
          (if sysPrompt ≠ "" then [GenaiPart.text sysPrompt] else []) ++
          (stdinContent.map GenaiPart.text).toList ++
          (args.head?.map GenaiPart.text).toList
         if parts = [] then
           Except.error "expect a prompt from stdin and/or command-line argument"
         else Except.ok parts)) ∧
    (∀ (sysPrompt : String) (stdinContent : Option String) (a : String)
        (rest : List String),
      runPromptCmd sysPrompt stdinContent (a :: rest)
        = runPromptCmd sysPrompt stdinContent [a]) := by
  constructor
  · intro sysPrompt stdinContent args
    cases stdinContent <;> cases args <;>
      by_cases hs : sysPrompt = "" <;>
      simp [runPromptCmd, hs]
  · intro sysPrompt stdinContent a rest
    cases stdinContent <;> by_cases hs : sysPrompt = "" <;>
      simp [runPromptCmd, hs]
